import Mathlib

/-!
Verification of the SamirCosta/RedeSocial Python console client
(`Projeto rede social/Client/Python/social_network_client.py`).

The client is shallowly embedded: each `SocialNetworkClient` method becomes a
pure function over the session state (`current_user : Option String`), the
method arguments, and the decoded server reply; its result records the new
session state, the returned dictionary, the requests transmitted over the
transport, and the console lines printed.  Python dictionary access through
`dict.get` is modelled with `Option` fields and `Option.getD`, and Python
truthiness of strings and of `None` with `pyTruthy` / `Option.getD false`.
-/

namespace SocialClient

/-- Python truthiness of a possibly-absent string (`None` and `""` are falsy). -/
def pyTruthy : Option String → Bool
  | none => false
  | some s => s != ""

/-- Python `a or b` restricted to optional strings: `a` when truthy, else `b`. -/
def pyOr (a b : Option String) : Option String :=
  if pyTruthy a then a else b

/-- Rendering of an optional string inside a Python f-string: an absent value
prints as the text `None`. -/
def pyShow : Option String → String
  | some s => s
  | none => "None"

/-- A wire field value: the requests built by the client carry strings, except
for the feed limit which is an integer. -/
inductive FieldVal where
  | str (s : String)
  | int (n : Int)
deriving DecidableEq

/-- A request dictionary as built by the client: the `action` key plus the
action-specific fields, in the order the source writes them. -/
structure Request where
  action : String
  fields : List (String × FieldVal)
deriving DecidableEq

/-- A post as read by the display code (`post.get` on each key, so every field
is optional). -/
structure Post where
  username : Option String := none
  content : Option String := none
  createdAt : Option String := none
deriving DecidableEq

/-- A message as read by the display code (`msg.get` on each key). -/
structure Message where
  senderUsername : Option String := none
  content : Option String := none
  sentAt : Option String := none
  read : Option Bool := none
deriving DecidableEq

/-- A decoded response dictionary, restricted to the keys the client reads.
Every field is optional because the client reads them with `dict.get`. -/
structure Response where
  success : Option Bool := none
  error : Option String := none
  replication_complete : Option Bool := none
  username : Option String := none
  posts : Option (List Post) := none
  messages : Option (List Message) := none
  followers : Option (List String) := none
  following : Option (List String) := none
  count : Option Int := none
deriving DecidableEq

/-- Result of executing one client method: the session state afterwards, the
dictionary returned to the caller, the requests transmitted through
`_send_request`, and the console lines the method itself printed. -/
structure StepResult where
  state : Option String
  response : Response
  sends : List Request
  console : List String
deriving DecidableEq

/-- The local precondition-failure dictionary returned by every
identity-requiring method when `current_user` is falsy (source line 89 etc.). -/
def loginRequired : Response :=
  { success := some false, error := some ("Você precisa fazer login primeiro") }

/-- Model of `SocialNetworkClient.register_user` (lines 29–53): always sends
`USER_REGISTER`; prints the replication-wait line when the reply has a truthy
`success` and `replication_complete` identical to `False`; never touches
`current_user`. -/
def register_user (cu : Option String) (username password : String)
    (reply : Response) : StepResult :=
  { state := cu
    response := reply
    sends := [{ action := "USER_REGISTER"
                fields := [("username", FieldVal.str username),
                           ("password", FieldVal.str password)] }]
    console := if reply.success.getD false ∧ reply.replication_complete = some false
               then [("Aguardando replicação de dados...")] else [] }

/-- Model of `SocialNetworkClient.login` (lines 55–76): sends `USER_LOGIN` and, when the
reply's `success` field is truthy (`response.get("success", False)`), assigns
the caller-supplied `username` argument to `current_user`. -/
def login (cu : Option String) (username password : String)
    (reply : Response) : StepResult :=
  { state := if reply.success.getD false then some username else cu
    response := reply
    sends := [{ action := "USER_LOGIN"
                fields := [("username", FieldVal.str username),
                           ("password", FieldVal.str password)] }]
    console := [] }

/-- The CLI logout branch (`main`, lines 598–600): `client.current_user = None`. -/
def logout (_cu : Option String) : Option String := none

/-- Model of `SocialNetworkClient.create_post` (lines 78–98). -/
def create_post (cu : Option String) (content : String)
    (reply : Response) : StepResult :=
  if !pyTruthy cu then
    { state := cu, response := loginRequired, sends := [], console := [] }
  else
    { state := cu
      response := reply
      sends := [{ action := "CREATE_POST"
                  fields := [("username", FieldVal.str (cu.getD (""))),
                             ("content", FieldVal.str content)] }]
      console := [] }

/-- Model of `SocialNetworkClient.get_user_posts` (lines 100–121): optional target,
`target_user = username or self.current_user`. -/
def get_user_posts (cu : Option String) (username : Option String)
    (reply : Response) : StepResult :=
  if !pyTruthy username && !pyTruthy cu then
    { state := cu, response := loginRequired, sends := [], console := [] }
  else
    { state := cu
      response := reply
      sends := [{ action := "GET_USER_POSTS"
                  fields := [("username", FieldVal.str ((pyOr username cu).getD ("")))] }]
      console := [] }

/-- Model of `SocialNetworkClient.get_feed` (lines 123–143). -/
def get_feed (cu : Option String) (limit : Int)
    (reply : Response) : StepResult :=
  if !pyTruthy cu then
    { state := cu, response := loginRequired, sends := [], console := [] }
  else
    { state := cu
      response := reply
      sends := [{ action := "GET_FEED"
                  fields := [("username", FieldVal.str (cu.getD (""))),
                             ("limit", FieldVal.int limit)] }]
      console := [] }

/-- Model of `SocialNetworkClient.follow_user` (lines 145–165). -/
def follow_user (cu : Option String) (usernameToFollow : String)
    (reply : Response) : StepResult :=
  if !pyTruthy cu then
    { state := cu, response := loginRequired, sends := [], console := [] }
  else
    { state := cu
      response := reply
      sends := [{ action := "FOLLOW_USER"
                  fields := [("followerUsername", FieldVal.str (cu.getD (""))),
                             ("followedUsername", FieldVal.str usernameToFollow)] }]
      console := [] }

/-- Model of `SocialNetworkClient.unfollow_user` (lines 167–187). -/
def unfollow_user (cu : Option String) (usernameToUnfollow : String)
    (reply : Response) : StepResult :=
  if !pyTruthy cu then
    { state := cu, response := loginRequired, sends := [], console := [] }
  else
    { state := cu
      response := reply
      sends := [{ action := "UNFOLLOW_USER"
                  fields := [("followerUsername", FieldVal.str (cu.getD (""))),
                             ("followedUsername", FieldVal.str usernameToUnfollow)] }]
      console := [] }

/-- Model of `SocialNetworkClient.get_followers` (lines 189–210). -/
def get_followers (cu : Option String) (username : Option String)
    (reply : Response) : StepResult :=
  if !pyTruthy username && !pyTruthy cu then
    { state := cu, response := loginRequired, sends := [], console := [] }
  else
    { state := cu
      response := reply
      sends := [{ action := "GET_FOLLOWERS"
                  fields := [("username", FieldVal.str ((pyOr username cu).getD ("")))] }]
      console := [] }

/-- Model of `SocialNetworkClient.get_following` (lines 212–233). -/
def get_following (cu : Option String) (username : Option String)
    (reply : Response) : StepResult :=
  if !pyTruthy username && !pyTruthy cu then
    { state := cu, response := loginRequired, sends := [], console := [] }
  else
    { state := cu
      response := reply
      sends := [{ action := "GET_FOLLOWING"
                  fields := [("username", FieldVal.str ((pyOr username cu).getD ("")))] }]
      console := [] }

/-- Model of `SocialNetworkClient.send_message` (lines 235–257). -/
def send_message (cu : Option String) (receiverUsername content : String)
    (reply : Response) : StepResult :=
  if !pyTruthy cu then
    { state := cu, response := loginRequired, sends := [], console := [] }
  else
    { state := cu
      response := reply
      sends := [{ action := "SEND_MESSAGE"
                  fields := [("senderUsername", FieldVal.str (cu.getD (""))),
                             ("receiverUsername", FieldVal.str receiverUsername),
                             ("content", FieldVal.str content)] }]
      console := [] }

/-- Model of `SocialNetworkClient.get_conversation` (lines 259–279). -/
def get_conversation (cu : Option String) (otherUsername : String)
    (reply : Response) : StepResult :=
  if !pyTruthy cu then
    { state := cu, response := loginRequired, sends := [], console := [] }
  else
    { state := cu
      response := reply
      sends := [{ action := "GET_CONVERSATION"
                  fields := [("username1", FieldVal.str (cu.getD (""))),
                             ("username2", FieldVal.str otherUsername)] }]
      console := [] }

/-- Model of `SocialNetworkClient.get_unread_messages` (lines 281–297). -/
def get_unread_messages (cu : Option String)
    (reply : Response) : StepResult :=
  if !pyTruthy cu then
    { state := cu, response := loginRequired, sends := [], console := [] }
  else
    { state := cu
      response := reply
      sends := [{ action := "GET_UNREAD_MESSAGES"
                  fields := [("username", FieldVal.str (cu.getD ("")))] }]
      console := [] }

/-- Model of `SocialNetworkClient.mark_message_as_read` (lines 299–319). -/
def mark_message_as_read (cu : Option String) (messageId : String)
    (reply : Response) : StepResult :=
  if !pyTruthy cu then
    { state := cu, response := loginRequired, sends := [], console := [] }
  else
    { state := cu
      response := reply
      sends := [{ action := "MARK_AS_READ"
                  fields := [("messageId", FieldVal.str messageId),
                             ("username", FieldVal.str (cu.getD ("")))] }]
      console := [] }

/-- The decode stage of `SocialNetworkClient._send_request` (lines 340–346).
`parse` stands for `json.loads`, returning `none` on `JSONDecodeError`.  On a
decode failure the method prints a diagnostic line holding the raw payload and
returns the fixed failure dictionary; on success the decoded dictionary is
returned verbatim.  The second component is the console output. -/
def sendRequestDecode (parse : String → Option Response) (raw : String) :
    Response × List String :=
  match parse raw with
  | some r => (r, [])
  | none =>
      ({ success := some false,
         error := some ("Erro ao decodificar resposta do servidor") },
       [("Erro ao decodificar resposta: " ++ raw)])

/-- The `"-" * 40` separator printed after each post/message. -/
def dashLine : String := "----------------------------------------"

/-- Concatenation of the lines rendered for each element of a list, in order. -/
def renderEach {α : Type} (f : α → List String) : List α → List String
  | [] => []
  | x :: xs => f x ++ renderEach f xs

/-- The three lines `display_posts` prints per post (lines 368–375). -/
def renderPost (p : Post) : List String :=
  [("\n@" ++ pyShow p.username ++ " - " ++ pyShow p.createdAt),
   pyShow p.content,
   dashLine]

/-- The three lines `display_messages` prints per message (lines 392–401). -/
def renderMessage (m : Message) : List String :=
  [("\n" ++ (if m.read.getD false then "[Lida]" else "[Não lida]") ++
      " De: @" ++ pyShow m.senderUsername ++ " - " ++ pyShow m.sentAt),
   pyShow m.content,
   dashLine]

/-- The numbered lines `display_users` prints, `enumerate(users, 1)` style
(lines 418–419). -/
def renderUsersFrom : Nat → List String → List String
  | _, [] => []
  | i, u :: rest => (toString i ++ ". @" ++ u) :: renderUsersFrom (i + 1) rest

/-- Model of `display_posts` (lines 354–375), as the list of printed lines. -/
def display_posts (r : Response) : List String :=
  if !(r.success.getD false) then
    [("Erro: " ++ pyShow r.error)]
  else
    let posts := r.posts.getD []
    let count := r.count.getD 0
    if count = 0 then
      [("Nenhuma publicação encontrada.")]
    else
      ("\n=== " ++ toString count ++ " Publicações ===") :: renderEach renderPost posts

/-- Model of `display_messages` (lines 378–401), as the list of printed lines. -/
def display_messages (r : Response) : List String :=
  if !(r.success.getD false) then
    [("Erro: " ++ pyShow r.error)]
  else
    let messages := r.messages.getD []
    let count := r.count.getD 0
    if count = 0 then
      [("Nenhuma mensagem encontrada.")]
    else
      ("\n=== " ++ toString count ++ " Mensagens ===") :: renderEach renderMessage messages

/-- Python `str.lower()` as used on the relation-type keys (ASCII in every
call site), mapping each character to its lower-case form. -/
def pyLower (s : String) : String := String.mk (s.data.map Char.toLower)

/-- The dictionary lookup `users_response.get(relation_type.lower(), [])`
restricted to the list-valued keys the modelled responses carry. -/
def getUsersField (r : Response) (key : String) : List String :=
  if key = "followers" then r.followers.getD []
  else if key = "following" then r.following.getD []
  else []

/-- Model of `display_users` (lines 404–419), as the list of printed lines. -/
def display_users (r : Response) (relationType : String) : List String :=
  if !(r.success.getD false) then
    [("Erro: " ++ pyShow r.error)]
  else
    let users := getUsersField r (pyLower relationType)
    let count := r.count.getD 0
    if count = 0 then
      [("Nenhum " ++ pyLower relationType ++ " encontrado.")]
    else
      ("\n=== " ++ toString count ++ " " ++ relationType ++ " ===") ::
        renderUsersFrom 1 users


/-- Claim C1: every identity-requiring operation (create_post, get_feed,
follow_user, unfollow_user, send_message, get_conversation,
get_unread_messages, mark_message_as_read) invoked while the session is
Anonymous (`current_user = none`) returns the local precondition-failure
dictionary and transmits nothing: the request never reaches `_send_request`. -/
theorem anonymous_ops_rejected_without_send (content target receiver other mid : String)
    (limit : Int) (reply : Response) :
    create_post none content reply =
      { state := none, response := loginRequired, sends := [], console := [] } ∧
    get_feed none limit reply =
      { state := none, response := loginRequired, sends := [], console := [] } ∧
    follow_user none target reply =
      { state := none, response := loginRequired, sends := [], console := [] } ∧
    unfollow_user none target reply =
      { state := none, response := loginRequired, sends := [], console := [] } ∧
    send_message none receiver content reply =
      { state := none, response := loginRequired, sends := [], console := [] } ∧
    get_conversation none other reply =
      { state := none, response := loginRequired, sends := [], console := [] } ∧
    get_unread_messages none reply =
      { state := none, response := loginRequired, sends := [], console := [] } ∧
    mark_message_as_read none mid reply =
      { state := none, response := loginRequired, sends := [], console := [] } :=
  ⟨rfl, rfl, rfl, rfl, rfl, rfl, rfl, rfl⟩

/-- Claim C2: a login whose reply has `success` true moves the session from
Anonymous to Authenticated with the argument username; a reply lacking
`success` or carrying `success` false leaves the session unchanged; the
explicit logout returns the session to Anonymous. -/
theorem login_state_transitions (u p : String) (reply : Response) :
    (reply.success = some true → (login none u p reply).state = some u) ∧
    ((reply.success = some false ∨ reply.success = none) →
       ∀ cu : Option String, (login cu u p reply).state = cu) ∧
    (∀ cu : Option String, logout cu = none) := by
  refine ⟨?_, ?_, fun _ => rfl⟩
  · intro h
    simp [login, h]
  · rintro (h | h) cu <;> simp [login, h]

/-- Witness for C2 at concrete inputs: a successful login from Anonymous, a
failed login and a success-less reply leaving the state alone, and a logout. -/
theorem login_state_transitions_witness :
    (login none ("alice") ("pw") { success := some true }).state = some ("alice") ∧
    (login (some ("bob")) ("alice") ("pw") { success := some false }).state = some ("bob") ∧
    (login (some ("bob")) ("alice") ("pw") ({} : Response)).state = some ("bob") ∧
    logout (some ("alice")) = none := by
  refine ⟨?_, ?_, ?_, ?_⟩
  · exact (login_state_transitions ("alice") ("pw") { success := some true }).1 rfl
  · exact (login_state_transitions ("alice") ("pw") { success := some false }).2.1
      (Or.inl rfl) (some ("bob"))
  · exact (login_state_transitions ("alice") ("pw") ({} : Response)).2.1
      (Or.inr rfl) (some ("bob"))
  · exact (login_state_transitions ("alice") ("pw") ({} : Response)).2.2 (some ("alice"))

/-- Sample post used in concrete formatter evaluations. -/
def pA : Post := { username := some ("a") }

/-- Second sample post used in concrete formatter evaluations. -/
def pB : Post := { username := some ("b") }

/-- Third sample post used in concrete formatter evaluations. -/
def pC : Post := { username := some ("c") }

/-- Counterexample to claim C3: the formatter does not gate on the collection's
emptiness but on the `count` field.  With `success` true, an empty `posts` list
and `count = 1`, `display_posts` emits a header and no nothing-found message;
with three posts and `count = 0` it emits only the nothing-found message and
zero item renderings. -/
theorem display_posts_count_gate_counterexample :
    display_posts { success := some true, posts := some [], count := some 1 } =
      [("\n=== 1 Publicações ===")] ∧
    display_posts { success := some true, posts := some [pA, pB, pC], count := some 0 } =
      [("Nenhuma publicação encontrada.")] :=
  ⟨by decide, by decide⟩

/-- Amended claim C3: for a response with `success` true the emptiness gate is
the `count` field (absent read as 0), not the collection length.  With
`count = 0` each formatter emits only its nothing-found message; with
`count ≠ 0` it emits a count header followed by one rendering per element of
the collection in server-provided input order — in particular exactly three
renderings, in order, when the collection holds three items. -/
theorem formatters_gate_on_count (r : Response) (hs : r.success.getD false = true) :
    (r.count.getD 0 = 0 →
       display_posts r = [("Nenhuma publicação encontrada.")] ∧
       display_messages r = [("Nenhuma mensagem encontrada.")] ∧
       display_users r ("followers") = [("Nenhum followers encontrado.")] ∧
       display_users r ("following") = [("Nenhum following encontrado.")]) ∧
    (r.count.getD 0 ≠ 0 →
       display_posts r = ("\n=== " ++ toString (r.count.getD 0) ++ " Publicações ===") ::
         renderEach renderPost (r.posts.getD []) ∧
       display_messages r = ("\n=== " ++ toString (r.count.getD 0) ++ " Mensagens ===") ::
         renderEach renderMessage (r.messages.getD []) ∧
       display_users r ("followers") =
         ("\n=== " ++ toString (r.count.getD 0) ++ " " ++ ("followers") ++ " ===") ::
           renderUsersFrom 1 (r.followers.getD []) ∧
       display_users r ("following") =
         ("\n=== " ++ toString (r.count.getD 0) ++ " " ++ ("following") ++ " ===") ::
           renderUsersFrom 1 (r.following.getD [])) ∧
    (∀ p1 p2 p3 : Post, r.count.getD 0 ≠ 0 → r.posts = some [p1, p2, p3] →
       display_posts r = ("\n=== " ++ toString (r.count.getD 0) ++ " Publicações ===") ::
         (renderPost p1 ++ (renderPost p2 ++ renderPost p3))) := by
  have hf : pyLower ("followers") = ("followers") := by decide
  have hg : pyLower ("following") = ("following") := by decide
  refine ⟨?_, ?_, ?_⟩
  · intro h0
    refine ⟨?_, ?_, ?_, ?_⟩ <;>
      simp [display_posts, display_messages, display_users, getUsersField, hs, h0, hf, hg]
  · intro hne
    refine ⟨?_, ?_, ?_, ?_⟩ <;>
      simp [display_posts, display_messages, display_users, getUsersField, hs, hne, hf, hg]
  · intro p1 p2 p3 hne hp
    simp [display_posts, hs, hne, hp, renderEach]

/-- Witness for the amended C3 at concrete inputs: a count-zero response and a
three-post response. -/
theorem formatters_gate_on_count_witness :
    display_posts { success := some true, posts := some [], count := some 0 } =
      [("Nenhuma publicação encontrada.")] ∧
    display_posts { success := some true, posts := some [pA, pB, pC], count := some 3 } =
      ("\n=== " ++ toString ((some (3 : Int)).getD 0) ++ " Publicações ===") ::
        (renderPost pA ++ (renderPost pB ++ renderPost pC)) := by
  constructor
  · exact ((formatters_gate_on_count
      { success := some true, posts := some [], count := some 0 } rfl).1 rfl).1
  · exact (formatters_gate_on_count
      { success := some true, posts := some [pA, pB, pC], count := some 3 } rfl).2.2
      pA pB pC (by decide) rfl

/-- Counterexample to claim C4: with an authenticated session, `create_post`
with empty required `content` is not rejected — the request is transmitted with
the empty field and the server reply is returned, with no local failure. -/
theorem create_post_empty_content_is_transmitted :
    (create_post (some ("alice")) ("") { success := some true }).sends =
      [{ action := "CREATE_POST",
         fields := [("username", FieldVal.str ("alice")),
                    ("content", FieldVal.str (""))] }] ∧
    (create_post (some ("alice")) ("") { success := some true }).response =
      { success := some true } :=
  ⟨by decide, by decide⟩

/-- Amended claim C4: the client methods validate only the session identity.
When `current_user` is falsy they fail locally with no transmission; otherwise
they transmit the request with the argument values verbatim, even when
`content` or the receiver is empty — the emptiness checks for those fields live
in the interactive shell, not in the client. -/
theorem client_checks_only_session_identity (u content receiver : String)
    (reply : Response) (hu : u ≠ ("")) :
    (create_post (some u) content reply).sends =
      [{ action := "CREATE_POST",
         fields := [("username", FieldVal.str u), ("content", FieldVal.str content)] }] ∧
    (create_post (some u) content reply).response = reply ∧
    (send_message (some u) receiver content reply).sends =
      [{ action := "SEND_MESSAGE",
         fields := [("senderUsername", FieldVal.str u),
                    ("receiverUsername", FieldVal.str receiver),
                    ("content", FieldVal.str content)] }] ∧
    (send_message (some u) receiver content reply).response = reply ∧
    create_post none content reply =
      { state := none, response := loginRequired, sends := [], console := [] } ∧
    send_message none receiver content reply =
      { state := none, response := loginRequired, sends := [], console := [] } := by
  refine ⟨?_, ?_, ?_, ?_, rfl, rfl⟩ <;> simp [create_post, send_message, pyTruthy, hu]

/-- Witness for the amended C4: an authenticated `create_post` with empty
content transmits the request. -/
theorem client_checks_only_session_identity_witness :
    (create_post (some ("alice")) ("") ({} : Response)).sends =
      [{ action := "CREATE_POST",
         fields := [("username", FieldVal.str ("alice")),
                    ("content", FieldVal.str (""))] }] :=
  (client_checks_only_session_identity ("alice") ("") ("") ({} : Response) (by decide)).1

/-- Counterexample to claim C5: the decode-failure result does not carry the
raw payload — two different unparseable payloads yield identical results, the
fixed failure dictionary with a constant error message. -/
theorem decode_failure_result_omits_payload :
    (sendRequestDecode (fun _ => none) ("carga-corrompida-um")).1 =
      (sendRequestDecode (fun _ => none) ("carga-corrompida-dois")).1 ∧
    (sendRequestDecode (fun _ => none) ("carga-corrompida-um")).1 =
      { success := some false,
        error := some ("Erro ao decodificar resposta do servidor") } :=
  ⟨rfl, rfl⟩

/-- Amended claim C5: a received payload that is not parseable yields a
classified decode-error failure dictionary with the fixed message, and the raw
payload appears only in the console diagnostic line, not in the returned
result; the decode step is total, so no exception escapes the call boundary. -/
theorem decode_failure_classified_and_logged (parse : String → Option Response)
    (raw : String) (h : parse raw = none) :
    sendRequestDecode parse raw =
      ({ success := some false,
         error := some ("Erro ao decodificar resposta do servidor") },
       [("Erro ao decodificar resposta: " ++ raw)]) := by
  simp [sendRequestDecode, h]

/-- Witness for the amended C5 at a concrete unparseable payload. -/
theorem decode_failure_classified_and_logged_witness :
    sendRequestDecode (fun _ => none) ("texto-nao-json") =
      ({ success := some false,
         error := some ("Erro ao decodificar resposta do servidor") },
       [("Erro ao decodificar resposta: " ++ ("texto-nao-json"))]) :=
  decode_failure_classified_and_logged (fun _ => none) ("texto-nao-json") rfl

/-- Counterexample to claim C6: the local precondition failure is structurally
identical to a server-reported failure.  The dictionary returned by an
anonymous `create_post` equals the dictionary an authenticated `create_post`
returns when the server itself replies with `success` false and the same error
string, so the two are not distinguishable by the caller. -/
theorem precondition_failure_equals_server_failure :
    (create_post none ("hi") { success := some true }).response =
      (create_post (some ("alice")) ("hi")
        { success := some false,
          error := some ("Você precisa fazer login primeiro") }).response := by
  decide

/-- Amended claim C6: a precondition error is reported as a structured failure
of the same shape as a server-reported failure — `success` false plus an error
string — with the fixed local message and no separate classification tag, while
server replies are passed through verbatim; the two are told apart only by the
error text. -/
theorem precondition_failure_shares_server_failure_shape (content : String)
    (reply : Response) :
    (create_post none content reply).response =
      { success := some false,
        error := some ("Você precisa fazer login primeiro") } ∧
    (∀ u : String, u ≠ ("") → (create_post (some u) content reply).response = reply) := by
  refine ⟨rfl, fun u hu => ?_⟩
  simp [create_post, pyTruthy, hu]

/-- Witness for the amended C6: an authenticated call returns the server reply
verbatim. -/
theorem precondition_failure_shares_server_failure_shape_witness :
    (create_post (some ("alice")) ("oi") ({} : Response)).response = ({} : Response) :=
  (precondition_failure_shares_server_failure_shape ("oi") ({} : Response)).2
    ("alice") (by decide)

/-- Counterexample to claim C7: an explicitly supplied empty-string target is
not used.  With the session authenticated as alice, `get_user_posts` called
with the explicit target `""` sends a request for alice; with the session
anonymous, the same call is rejected locally instead of sending a request for
the given target. -/
theorem empty_explicit_target_falls_back :
    (get_user_posts (some ("alice")) (some ("")) { success := some true }).sends =
      [{ action := "GET_USER_POSTS",
         fields := [("username", FieldVal.str ("alice"))] }] ∧
    (get_user_posts none (some ("")) { success := some true }).sends = [] ∧
    (get_user_posts none (some ("")) { success := some true }).response = loginRequired :=
  ⟨by decide, by decide, by decide⟩

/-- Amended claim C7: for get_user_posts, get_followers and get_following, a
non-empty explicit target is used regardless of session state; an absent or
empty-string target falls back to the session user; when neither a truthy
target nor a truthy session user is available the call is rejected locally with
the precondition failure and no network interaction. -/
theorem optional_target_resolution (cu : Option String) (t u : String)
    (reply : Response) :
    (t ≠ ("") →
       (get_user_posts cu (some t) reply).sends =
         [{ action := "GET_USER_POSTS", fields := [("username", FieldVal.str t)] }] ∧
       (get_followers cu (some t) reply).sends =
         [{ action := "GET_FOLLOWERS", fields := [("username", FieldVal.str t)] }] ∧
       (get_following cu (some t) reply).sends =
         [{ action := "GET_FOLLOWING", fields := [("username", FieldVal.str t)] }]) ∧
    (u ≠ ("") →
       (get_user_posts (some u) none reply).sends =
         [{ action := "GET_USER_POSTS", fields := [("username", FieldVal.str u)] }] ∧
       (get_user_posts (some u) (some ("")) reply).sends =
         [{ action := "GET_USER_POSTS", fields := [("username", FieldVal.str u)] }] ∧
       (get_followers (some u) none reply).sends =
         [{ action := "GET_FOLLOWERS", fields := [("username", FieldVal.str u)] }] ∧
       (get_following (some u) none reply).sends =
         [{ action := "GET_FOLLOWING", fields := [("username", FieldVal.str u)] }]) ∧
    (get_user_posts none none reply =
       { state := none, response := loginRequired, sends := [], console := [] } ∧
     get_followers none none reply =
       { state := none, response := loginRequired, sends := [], console := [] } ∧
     get_following none none reply =
       { state := none, response := loginRequired, sends := [], console := [] }) := by
  have h0 : pyTruthy (some ("")) = false := by decide
  refine ⟨?_, ?_, rfl, rfl, rfl⟩
  · intro ht
    refine ⟨?_, ?_, ?_⟩ <;>
      simp [get_user_posts, get_followers, get_following, pyOr, pyTruthy, ht]
  · intro hu
    refine ⟨?_, ?_, ?_, ?_⟩ <;>
      simp [get_user_posts, get_followers, get_following, pyOr, pyTruthy, hu, h0]

/-- Witness for the amended C7: explicit target used, and fallback to the
session user when no target is given. -/
theorem optional_target_resolution_witness :
    (get_user_posts (some ("alice")) (some ("bob")) ({} : Response)).sends =
      [{ action := "GET_USER_POSTS", fields := [("username", FieldVal.str ("bob"))] }] ∧
    (get_user_posts (some ("alice")) none ({} : Response)).sends =
      [{ action := "GET_USER_POSTS", fields := [("username", FieldVal.str ("alice"))] }] := by
  constructor
  · exact ((optional_target_resolution (some ("alice")) ("bob") ("alice")
      ({} : Response)).1 (by decide)).1
  · exact ((optional_target_resolution (some ("alice")) ("bob") ("alice")
      ({} : Response)).2.1 (by decide)).1

/-- Claim C8: for every response with `success` false, each formatter renders
the `error` field when present and the default rendering (the fixed line for an
absent field) when it is absent, and renders no per-item lines: the output is a
single error line in both cases, for all three formatters. -/
theorem formatters_render_error_on_failure (r : Response)
    (h : r.success.getD false = false) :
    (∀ e : String, r.error = some e →
       display_posts r = [("Erro: " ++ e)] ∧
       display_messages r = [("Erro: " ++ e)] ∧
       ∀ rel : String, display_users r rel = [("Erro: " ++ e)]) ∧
    (r.error = none →
       display_posts r = [("Erro: None")] ∧
       display_messages r = [("Erro: None")] ∧
       ∀ rel : String, display_users r rel = [("Erro: None")]) := by
  constructor
  · intro e he
    refine ⟨?_, ?_, fun rel => ?_⟩ <;>
      simp [display_posts, display_messages, display_users, pyShow, h, he]
  · intro he
    refine ⟨?_, ?_, fun rel => ?_⟩ <;>
      simp [display_posts, display_messages, display_users, pyShow, h, he]

/-- Witness for C8: a failure response with an error string and one without. -/
theorem formatters_render_error_on_failure_witness :
    display_posts { success := some false, error := some ("falhou") } =
      [("Erro: " ++ ("falhou"))] ∧
    display_posts { success := some false } = [("Erro: None")] := by
  constructor
  · exact ((formatters_render_error_on_failure
      { success := some false, error := some ("falhou") } rfl).1 ("falhou") rfl).1
  · exact ((formatters_render_error_on_failure
      { success := some false } rfl).2 rfl).1

/-- Claim C9: `register_user` never modifies the session — for every input and
every server reply, with or without `replication_complete`, `current_user`
after the call equals `current_user` before it. -/
theorem register_user_preserves_session (cu : Option String) (u p : String)
    (reply : Response) :
    (register_user cu u p reply).state = cu := rfl

/-- Claim C10: when the reply's `success` field is truthy, login overwrites an
existing authenticated session, and the new identity is the caller-supplied
username argument — never a username field of the server response, which is
quantified over freely here. -/
theorem login_overwrites_session_with_argument (prev u p : String)
    (reply : Response) (h : reply.success.getD false = true) :
    (login (some prev) u p reply).state = some u := by
  simp [login, h]

/-- Witness for C10: the session authenticated as bob is overwritten with the
argument alice even though the server reply names carol. -/
theorem login_overwrites_session_with_argument_witness :
    (login (some ("bob")) ("alice") ("pw")
      { success := some true, username := some ("carol") }).state = some ("alice") :=
  login_overwrites_session_with_argument ("bob") ("alice") ("pw")
    { success := some true, username := some ("carol") } rfl

end SocialClient
